import Mathlib

/-!
Shallow embedding of the scan-event dispatch bridge in rules_callback.go
(package yara). The five callback capabilities, the dispatcher
scanCallbackFunc, the buffer-tracking container scanCallbackContainer with
its finalize method, and the MatchRules default recorder are translated
into Lean definitions; Go interface satisfaction checks become Option
fields, Go byte slices become List Nat, C pointers become Nat values, and
the Go error type becomes Option String (none corresponds to a nil error).
-/

/-- Verdict codes returned to the engine. The engine-defined constants
CALLBACK_CONTINUE, CALLBACK_ABORT and CALLBACK_ERROR come from the engine
header, which is outside the repository; only their distinctness matters
to the bridge. -/
inductive Verdict where
  | CALLBACK_CONTINUE
  | CALLBACK_ABORT
  | CALLBACK_ERROR
deriving DecidableEq

/-- ScanContext wraps the engine scan-state pointer; the pointer is
modelled as a bare numeric value. -/
structure ScanContext where
  cptr : Nat
deriving DecidableEq

/-- Object is a handle into an imported module data tree; the underlying
pointer is modelled as a bare numeric value. -/
structure YRObject where
  cptr : Nat
deriving DecidableEq

/-- Typed scalar value of one metadata entry of a rule. The engine
accessor reports integers at the Go int width (constructor mInt); the
recorder narrows those to int32 (constructor mInt32). Booleans and
strings pass through. -/
inductive MetaValue where
  | mInt (i : Int)
  | mInt32 (i : Int)
  | mBool (b : Bool)
  | mStr (s : String)
deriving DecidableEq

/-- One matched-string detail record of a rule match. -/
structure MatchString where
  Name : String
  Base : Nat
  Offset : Nat
  Data : List Nat
deriving DecidableEq

/-- Modelled from the spec: the Rule handle with its accessors
(identifier, namespace, tags, metadata, matched-string details). The
accessor methods Identifier, Namespace, Tags, Metas and getMatchStrings
live outside the repository source, so the handle is modelled as a record
of the values those accessors report; matched-string details are produced
on demand from the scan context, hence a function field. -/
structure YRRule where
  Identifier : String
  Namespace : String
  Tags : List String
  Metas : List (String × MetaValue)
  getMatchStrings : ScanContext → List MatchString

/-- Bundle of optional callback capabilities, parametrised by the state
type of the caller object. A Go type assertion such as
cbc.ScanCallback.(ScanCallbackMatch) succeeding corresponds to the
matching field being some; the dispatcher checks each field per event.
Each capability returns the updated state together with the Go returns
(abort : Bool, err : Option String); ImportModule additionally returns
its payload bytes first, mirroring ([]byte, bool, error). -/
structure ScanCallbackBundle (σ : Type) where
  RuleMatching : Option (σ → ScanContext → YRRule → σ × Bool × Option String)
  RuleNotMatching : Option (σ → ScanContext → YRRule → σ × Bool × Option String)
  ScanFinished : Option (σ → ScanContext → σ × Bool × Option String)
  ImportModule : Option (σ → ScanContext → String → σ × List Nat × Bool × Option String)
  ModuleImported : Option (σ → ScanContext → YRObject → σ × Bool × Option String)

/-- scanCallbackContainer stores the public callback bundle, its mutable
state, and the list of malloc-style C pointers tracked for later release. -/
structure scanCallbackContainer (σ : Type) where
  ScanCallback : ScanCallbackBundle σ
  state : σ
  cdata : List Nat

/-- addCPointer appends a C pointer to the tracked list. -/
def scanCallbackContainer.addCPointer {σ : Type}
    (c : scanCallbackContainer σ) (p : Nat) : scanCallbackContainer σ :=
  { c with cdata := c.cdata ++ [p] }

/-- finalizeLoop models the for loop of finalize: it walks the tracked
pointer list and frees each entry, extending the log of freed pointers. -/
def finalizeLoop (freedLog : List Nat) : List Nat → List Nat
  | [] => freedLog
  | p :: ps => finalizeLoop (freedLog ++ [p]) ps

/-- finalize frees every stored C pointer and clears the tracked list.
The call to C.free is modelled by appending the pointer to a freed log;
the result is the log after the loop together with the updated container. -/
def scanCallbackContainer.finalize {σ : Type}
    (c : scanCallbackContainer σ) (freedLog : List Nat) :
    List Nat × scanCallbackContainer σ :=
  (finalizeLoop freedLog c.cdata, { c with cdata := [] })

/-- One engine event: the message code together with the event data the
dispatcher casts messageData to for that code. Codes other than the five
handled ones are the unknown constructor. -/
inductive ScanEvent where
  | ruleMatching (r : YRRule)
  | ruleNotMatching (r : YRRule)
  | scanFinished
  | importModule (moduleName : String)
  | moduleImported (o : YRObject)
  | unknown (code : Int)

/-- Capability label, recording which callback method an event dispatch
invoked. -/
inductive Capability where
  | ruleMatching
  | ruleNotMatching
  | scanFinished
  | importModule
  | moduleImported
deriving DecidableEq

/-- goCopy models the Go builtin copy(dst, src): the first
min(len dst, len src) elements of dst are replaced by those of src and
the rest of dst is unchanged. -/
def goCopy (dst src : List Nat) : List Nat :=
  src.take dst.length ++ dst.drop src.length

/-- Everything scanCallbackFunc produces on one event: the verdict
returned to the engine, the surviving container (none when the registry
lookup failed), the (module_data, module_data_size) pair written back
into the module-import event structure, the calloc allocation performed
(pointer and the bytes stored at it after the copy), and which
capability method was invoked, if any. -/
structure DispatchResult (σ : Type) where
  verdict : Verdict
  cbc : Option (scanCallbackContainer σ)
  moduleData : Option (Nat × Nat)
  allocation : Option (Nat × List Nat)
  invoked : Option Capability

/-- scanCallbackFunc translated from the source. The registry lookup
callbackData.Get is modelled by the userData argument already resolved to
an optional container; calloc is modelled by handing the dispatcher the
fresh pointer nextPtr and recording the zero-initialised bytes it returns
before the copy. The switch assigns abort and err (zero-valued unless a
capability runs) and the verdict is computed once afterwards, exactly as
in the source. -/
def scanCallbackFunc (σ : Type) (ctxPtr : Nat) (ev : ScanEvent)
    (userData : Option (scanCallbackContainer σ)) (nextPtr : Nat) :
    DispatchResult σ :=
  match userData with
  | none => ⟨Verdict.CALLBACK_ERROR, none, none, none, none⟩
  | some cbc =>
    let s : ScanContext := { cptr := ctxPtr }
    let step : scanCallbackContainer σ × Option (Nat × Nat) ×
        Option (Nat × List Nat) × Option Capability × Bool × Option String :=
      match ev with
      | ScanEvent.ruleMatching r =>
        match cbc.ScanCallback.RuleMatching with
        | some c =>
          let (st, abort, err) := c cbc.state s r
          ({ cbc with state := st }, none, none, some Capability.ruleMatching, abort, err)
        | none => (cbc, none, none, none, false, none)
      | ScanEvent.ruleNotMatching r =>
        match cbc.ScanCallback.RuleNotMatching with
        | some c =>
          let (st, abort, err) := c cbc.state s r
          ({ cbc with state := st }, none, none, some Capability.ruleNotMatching, abort, err)
        | none => (cbc, none, none, none, false, none)
      | ScanEvent.scanFinished =>
        match cbc.ScanCallback.ScanFinished with
        | some c =>
          let (st, abort, err) := c cbc.state s
          ({ cbc with state := st }, none, none, some Capability.scanFinished, abort, err)
        | none => (cbc, none, none, none, false, none)
      | ScanEvent.importModule moduleName =>
        match cbc.ScanCallback.ImportModule with
        | some c =>
          let (st, buf, abort, err) := c cbc.state s moduleName
          if buf.length = 0 then
            ({ cbc with state := st }, none, none, some Capability.importModule, abort, err)
          else
            let cbuf := nextPtr
            let outbuf := goCopy (List.replicate buf.length 0) buf
            (scanCallbackContainer.addCPointer { cbc with state := st } cbuf,
              some (cbuf, outbuf.length), some (cbuf, outbuf),
              some Capability.importModule, abort, err)
        | none => (cbc, none, none, none, false, none)
      | ScanEvent.moduleImported o =>
        match cbc.ScanCallback.ModuleImported with
        | some c =>
          let (st, abort, err) := c cbc.state s o
          ({ cbc with state := st }, none, none, some Capability.moduleImported, abort, err)
        | none => (cbc, none, none, none, false, none)
      | ScanEvent.unknown _ => (cbc, none, none, none, false, none)
    let (cbc2, md, alloc, inv, abort, err) := step
    let verdict :=
      if err.isSome then Verdict.CALLBACK_ERROR
      else if abort then Verdict.CALLBACK_ABORT
      else Verdict.CALLBACK_CONTINUE
    ⟨verdict, some cbc2, md, alloc, inv⟩

/-- MatchRule is the owned snapshot of one matched rule. -/
structure MatchRule where
  Rule : String
  Namespace : String
  Tags : List String
  Meta : List (String × MetaValue)
  Strings : List MatchString

/-- MatchRules collects matches for the simple scan methods. -/
def MatchRules := List MatchRule

/-- int32wrap models the Go conversion int32(i): the value is reduced
modulo 2 to the 32 into the signed 32-bit range. -/
def int32wrap (i : Int) : Int := (i + 2 ^ 31) % 2 ^ 32 - 2 ^ 31

/-- convertIntMeta is the body of the compatibility loop in RuleMatching:
a value of Go type int is converted to int32; every other value is left
unchanged. -/
def convertIntMeta : MetaValue → MetaValue
  | MetaValue.mInt i => MetaValue.mInt32 (int32wrap i)
  | v => v

/-- convertIntMetas applies convertIntMeta to every metadata entry,
modelling the for loop over the metas map. -/
def convertIntMetas (metas : List (String × MetaValue)) :
    List (String × MetaValue) :=
  metas.map (fun p => (p.1, convertIntMeta p.2))

/-- RuleMatching of MatchRules: snapshot the rule into a MatchRule,
append it, and return the zero-valued (abort, err) pair. -/
def MatchRules.RuleMatching (mr : MatchRules) (sc : ScanContext)
    (r : YRRule) : MatchRules × Bool × Option String :=
  let metas := convertIntMetas r.Metas
  (List.append mr
    [{ Rule := r.Identifier, Namespace := r.Namespace, Tags := r.Tags,
       Meta := metas, Strings := r.getMatchStrings sc }],
    false, none)

/-- Demo rule for concrete instances: identifier suspicious in namespace
default with tag malware and integer metadata score 80. -/
def demoRule : YRRule :=
  { Identifier := "suspicious", Namespace := "default", Tags := ["malware"],
    Metas := [("score", MetaValue.mInt 80)], getMatchStrings := fun _ => [] }

/-- Rule whose single integer metadata value 2147483648 lies just outside
the int32 range. -/
def wideMetaRule : YRRule :=
  { Identifier := "r", Namespace := "default", Tags := [],
    Metas := [("score", MetaValue.mInt 2147483648)],
    getMatchStrings := fun _ => [] }

/-- Bundle implementing no capability at all. -/
def emptyBundle : ScanCallbackBundle Unit := ⟨none, none, none, none, none⟩

/-- Rule-matching capability returning abort = true and no error. -/
def abortMatchCb : Unit → ScanContext → YRRule → Unit × Bool × Option String :=
  fun st _ _ => (st, true, none)

/-- Bundle implementing only the rule-matching capability, aborting on
every match. -/
def abortMatchBundle : ScanCallbackBundle Unit :=
  ⟨some abortMatchCb, none, none, none, none⟩

/-- Module-import capability returning a non-empty payload together with a
non-nil error. -/
def importErrCb : Unit → ScanContext → String → Unit × List Nat × Bool × Option String :=
  fun st _ _ => (st, [7], false, some "boom")

/-- Bundle implementing only the module-import capability via importErrCb. -/
def importErrBundle : ScanCallbackBundle Unit :=
  ⟨none, none, none, some importErrCb, none⟩

/-- Module-import capability returning payload [1, 2, 3] and no error. -/
def importOkCb : Unit → ScanContext → String → Unit × List Nat × Bool × Option String :=
  fun st _ _ => (st, [1, 2, 3], false, none)

/-- Bundle implementing only the module-import capability via importOkCb. -/
def importOkBundle : ScanCallbackBundle Unit :=
  ⟨none, none, none, some importOkCb, none⟩

/-- Module-import capability returning the empty payload with abort = true
and no error. -/
def importEmptyCb : Unit → ScanContext → String → Unit × List Nat × Bool × Option String :=
  fun st _ _ => (st, [], true, none)

/-- Bundle implementing only the module-import capability via
importEmptyCb. -/
def importEmptyBundle : ScanCallbackBundle Unit :=
  ⟨none, none, none, some importEmptyCb, none⟩

/-- Container holding a demo bundle with unit state and no tracked
pointers. -/
def mkContainer (b : ScanCallbackBundle Unit) : scanCallbackContainer Unit :=
  ⟨b, (), []⟩

/-- The finalize loop appends the walked list to the freed log. -/
theorem finalizeLoop_eq (freedLog l : List Nat) :
    finalizeLoop freedLog l = freedLog ++ l := by
  induction l generalizing freedLog with
  | nil => simp [finalizeLoop]
  | cons p ps ih => simp [finalizeLoop, ih]

/-- Copying a list into a freshly zeroed buffer of the same length
reproduces the list exactly. -/
theorem goCopy_replicate (l : List Nat) :
    goCopy (List.replicate l.length 0) l = l := by
  simp [goCopy]

/-- Claim C7: when the registry lookup does not yield a callback
container, the dispatcher returns the engine generic error verdict and
invokes no caller capability method, for every event. -/
theorem unresolvedToken_error_verdict (σ : Type) (ctxPtr nextPtr : Nat)
    (ev : ScanEvent) :
    scanCallbackFunc σ ctxPtr ev none nextPtr =
      ⟨Verdict.CALLBACK_ERROR, none, none, none, none⟩ := rfl

/-- Claim C10: for every event whose message code is none of the five
handled kinds, with a successful registry lookup, the dispatcher invokes
no callback method, changes nothing, and returns the engine continue
code. -/
theorem unknownMessage_continue (σ : Type) (ctxPtr nextPtr : Nat)
    (cbc : scanCallbackContainer σ) (code : Int) :
    scanCallbackFunc σ ctxPtr (ScanEvent.unknown code) (some cbc) nextPtr =
      ⟨Verdict.CALLBACK_CONTINUE, some cbc, none, none, none⟩ := rfl

/-- Claim C9: finalize frees each tracked pointer exactly once, leaves the
tracked list empty, and a second run frees nothing and changes nothing. -/
theorem finalize_frees_once_idempotent (σ : Type)
    (c : scanCallbackContainer σ) :
    (c.finalize []).1 = c.cdata ∧
    (∀ p : Nat, List.count p (c.finalize []).1 = List.count p c.cdata) ∧
    (c.finalize []).2.cdata = [] ∧
    ((c.finalize []).2.finalize []).1 = [] ∧
    ((c.finalize []).2.finalize []).2 = (c.finalize []).2 := by
  refine ⟨?_, ?_, rfl, rfl, rfl⟩
  · simp [scanCallbackContainer.finalize, finalizeLoop_eq]
  · intro p
    simp [scanCallbackContainer.finalize, finalizeLoop_eq]

/-- Claim C8: every rule-matched event delivered to the recorder appends
exactly one snapshot record, built from the rule identifier, namespace,
tags, converted metadata and matched-string details, at the end of the
sequence, leaving earlier records unchanged, and returns abort = false
with a nil error. -/
theorem ruleMatching_appends_one_record (mr : MatchRules) (sc : ScanContext)
    (r : YRRule) :
    MatchRules.RuleMatching mr sc r =
      (List.append mr
        [{ Rule := r.Identifier, Namespace := r.Namespace, Tags := r.Tags,
           Meta := convertIntMetas r.Metas,
           Strings := r.getMatchStrings sc }], false, none) ∧
    List.take (List.length mr) (MatchRules.RuleMatching mr sc r).1 = mr ∧
    List.length (MatchRules.RuleMatching mr sc r).1 = List.length mr + 1 := by
  refine ⟨rfl, ?_, ?_⟩
  · simp [MatchRules.RuleMatching]
  · simp [MatchRules.RuleMatching]

/-- Claim C1: for every event of any of the five kinds whose capability
method is invoked, the verdict is computed uniformly from the callback
(abort, error) result: a present error gives the engine error code,
otherwise abort gives the engine abort code, otherwise the engine
continue code. -/
theorem verdict_uniform_mapping (σ : Type) (ctxPtr nextPtr : Nat)
    (cbc : scanCallbackContainer σ) :
    (∀ f r st a e, cbc.ScanCallback.RuleMatching = some f →
      f cbc.state { cptr := ctxPtr } r = (st, a, e) →
      (scanCallbackFunc σ ctxPtr (ScanEvent.ruleMatching r)
          (some cbc) nextPtr).verdict =
        (if e.isSome then Verdict.CALLBACK_ERROR
         else if a then Verdict.CALLBACK_ABORT
         else Verdict.CALLBACK_CONTINUE)) ∧
    (∀ f r st a e, cbc.ScanCallback.RuleNotMatching = some f →
      f cbc.state { cptr := ctxPtr } r = (st, a, e) →
      (scanCallbackFunc σ ctxPtr (ScanEvent.ruleNotMatching r)
          (some cbc) nextPtr).verdict =
        (if e.isSome then Verdict.CALLBACK_ERROR
         else if a then Verdict.CALLBACK_ABORT
         else Verdict.CALLBACK_CONTINUE)) ∧
    (∀ f st a e, cbc.ScanCallback.ScanFinished = some f →
      f cbc.state { cptr := ctxPtr } = (st, a, e) →
      (scanCallbackFunc σ ctxPtr ScanEvent.scanFinished
          (some cbc) nextPtr).verdict =
        (if e.isSome then Verdict.CALLBACK_ERROR
         else if a then Verdict.CALLBACK_ABORT
         else Verdict.CALLBACK_CONTINUE)) ∧
    (∀ f name st buf a e, cbc.ScanCallback.ImportModule = some f →
      f cbc.state { cptr := ctxPtr } name = (st, buf, a, e) →
      (scanCallbackFunc σ ctxPtr (ScanEvent.importModule name)
          (some cbc) nextPtr).verdict =
        (if e.isSome then Verdict.CALLBACK_ERROR
         else if a then Verdict.CALLBACK_ABORT
         else Verdict.CALLBACK_CONTINUE)) ∧
    (∀ f o st a e, cbc.ScanCallback.ModuleImported = some f →
      f cbc.state { cptr := ctxPtr } o = (st, a, e) →
      (scanCallbackFunc σ ctxPtr (ScanEvent.moduleImported o)
          (some cbc) nextPtr).verdict =
        (if e.isSome then Verdict.CALLBACK_ERROR
         else if a then Verdict.CALLBACK_ABORT
         else Verdict.CALLBACK_CONTINUE)) := by
  refine ⟨?_, ?_, ?_, ?_, ?_⟩
  · intro f r st a e hf hr
    simp [scanCallbackFunc, hf, hr]
  · intro f r st a e hf hr
    simp [scanCallbackFunc, hf, hr]
  · intro f st a e hf hr
    simp [scanCallbackFunc, hf, hr]
  · intro f name st buf a e hf hr
    by_cases hb : List.length buf = 0 <;>
      simp [scanCallbackFunc, hf, hr, hb]
  · intro f o st a e hf hr
    simp [scanCallbackFunc, hf, hr]

/-- Witness for claim C1: a bundle whose rule-matching capability returns
abort = true and a nil error yields the engine abort code. -/
theorem verdict_uniform_mapping_witness :
    (scanCallbackFunc Unit 0 (ScanEvent.ruleMatching demoRule)
        (some (mkContainer abortMatchBundle)) 0).verdict =
      Verdict.CALLBACK_ABORT :=
  (verdict_uniform_mapping Unit 0 0 (mkContainer abortMatchBundle)).1
    abortMatchCb demoRule () true none rfl rfl

/-- Claim C6: for every event of any of the five kinds, if the bundle does
not implement the required capability, no callback method is invoked and
the verdict is the engine continue code, with nothing else changed. -/
theorem capabilityAbsent_continue (σ : Type) (ctxPtr nextPtr : Nat)
    (cbc : scanCallbackContainer σ) :
    (∀ r, cbc.ScanCallback.RuleMatching = none →
      scanCallbackFunc σ ctxPtr (ScanEvent.ruleMatching r)
          (some cbc) nextPtr =
        ⟨Verdict.CALLBACK_CONTINUE, some cbc, none, none, none⟩) ∧
    (∀ r, cbc.ScanCallback.RuleNotMatching = none →
      scanCallbackFunc σ ctxPtr (ScanEvent.ruleNotMatching r)
          (some cbc) nextPtr =
        ⟨Verdict.CALLBACK_CONTINUE, some cbc, none, none, none⟩) ∧
    (cbc.ScanCallback.ScanFinished = none →
      scanCallbackFunc σ ctxPtr ScanEvent.scanFinished
          (some cbc) nextPtr =
        ⟨Verdict.CALLBACK_CONTINUE, some cbc, none, none, none⟩) ∧
    (∀ name, cbc.ScanCallback.ImportModule = none →
      scanCallbackFunc σ ctxPtr (ScanEvent.importModule name)
          (some cbc) nextPtr =
        ⟨Verdict.CALLBACK_CONTINUE, some cbc, none, none, none⟩) ∧
    (∀ o, cbc.ScanCallback.ModuleImported = none →
      scanCallbackFunc σ ctxPtr (ScanEvent.moduleImported o)
          (some cbc) nextPtr =
        ⟨Verdict.CALLBACK_CONTINUE, some cbc, none, none, none⟩) := by
  refine ⟨?_, ?_, ?_, ?_, ?_⟩
  · intro r hf
    simp [scanCallbackFunc, hf]
  · intro r hf
    simp [scanCallbackFunc, hf]
  · intro hf
    simp [scanCallbackFunc, hf]
  · intro name hf
    simp [scanCallbackFunc, hf]
  · intro o hf
    simp [scanCallbackFunc, hf]

/-- Witness for claim C6: a bundle implementing no capability at all lets
a rule-matched event pass with the continue code and no invocation. -/
theorem capabilityAbsent_continue_witness :
    scanCallbackFunc Unit 0 (ScanEvent.ruleMatching demoRule)
        (some (mkContainer emptyBundle)) 0 =
      ⟨Verdict.CALLBACK_CONTINUE, some (mkContainer emptyBundle),
       none, none, none⟩ :=
  (capabilityAbsent_continue Unit 0 0 (mkContainer emptyBundle)).1
    demoRule rfl

/-- Claim C4: for every module-import event whose callback returns a
payload buf with positive length, the buffer handed to the engine holds
exactly the bytes of buf, and the length written back is the length of
buf. -/
theorem importModule_buffer_exact (σ : Type) (ctxPtr nextPtr : Nat)
    (cbc : scanCallbackContainer σ) (name : String)
    (f : σ → ScanContext → String → σ × List Nat × Bool × Option String)
    (st : σ) (buf : List Nat) (a : Bool) (e : Option String)
    (hf : cbc.ScanCallback.ImportModule = some f)
    (hr : f cbc.state { cptr := ctxPtr } name = (st, buf, a, e))
    (hne : buf ≠ []) :
    (scanCallbackFunc σ ctxPtr (ScanEvent.importModule name)
        (some cbc) nextPtr).allocation = some (nextPtr, buf) ∧
    (scanCallbackFunc σ ctxPtr (ScanEvent.importModule name)
        (some cbc) nextPtr).moduleData = some (nextPtr, List.length buf) := by
  have hb : ¬ List.length buf = 0 := by
    simpa [List.length_eq_zero] using hne
  constructor
  · simp [scanCallbackFunc, hf, hr, hb, goCopy_replicate]
  · simp [scanCallbackFunc, hf, hr, hb, goCopy_replicate]

/-- Witness for claim C4: a callback answering the import with payload
[1, 2, 3] makes the engine see pointer 9 with exactly those three bytes. -/
theorem importModule_buffer_exact_witness :
    (scanCallbackFunc Unit 0 (ScanEvent.importModule "net")
        (some (mkContainer importOkBundle)) 9).allocation =
      some (9, [1, 2, 3]) ∧
    (scanCallbackFunc Unit 0 (ScanEvent.importModule "net")
        (some (mkContainer importOkBundle)) 9).moduleData = some (9, 3) :=
  importModule_buffer_exact Unit 0 9 (mkContainer importOkBundle) "net"
    importOkCb () [1, 2, 3] false none rfl rfl (by simp)

/-- Claim C5: for every module-import event whose callback returns an
empty payload, no buffer is allocated, nothing is written back to the
engine event structure, the tracked list is unchanged, and the verdict is
still the uniform mapping of the returned (abort, error) pair. -/
theorem importModule_empty_payload (σ : Type) (ctxPtr nextPtr : Nat)
    (cbc : scanCallbackContainer σ) (name : String)
    (f : σ → ScanContext → String → σ × List Nat × Bool × Option String)
    (st : σ) (a : Bool) (e : Option String)
    (hf : cbc.ScanCallback.ImportModule = some f)
    (hr : f cbc.state { cptr := ctxPtr } name = (st, [], a, e)) :
    scanCallbackFunc σ ctxPtr (ScanEvent.importModule name)
        (some cbc) nextPtr =
      ⟨if e.isSome then Verdict.CALLBACK_ERROR
        else if a then Verdict.CALLBACK_ABORT
        else Verdict.CALLBACK_CONTINUE,
       some { cbc with state := st }, none, none,
       some Capability.importModule⟩ := by
  simp [scanCallbackFunc, hf, hr]

/-- Witness for claim C5: a callback answering with the empty payload and
abort = true leaves everything unallocated and yields the abort code. -/
theorem importModule_empty_payload_witness :
    scanCallbackFunc Unit 0 (ScanEvent.importModule "net")
        (some (mkContainer importEmptyBundle)) 9 =
      ⟨Verdict.CALLBACK_ABORT, some (mkContainer importEmptyBundle),
       none, none, some Capability.importModule⟩ :=
  importModule_empty_payload Unit 0 9 (mkContainer importEmptyBundle) "net"
    importEmptyCb () true none rfl rfl

/-- Counterexample to claim C3: the module-import callback importErrCb
returns payload [7] together with a non-nil error, yet the dispatcher
still allocates a buffer, tracks it, and hands it to the engine; the
claim that a non-nil error allocates no buffer is therefore false. -/
theorem importModule_error_still_allocates :
    (importErrCb () { cptr := 0 } "net").2.2.2 = some "boom" ∧
    (scanCallbackFunc Unit 0 (ScanEvent.importModule "net")
        (some (mkContainer importErrBundle)) 5).allocation = some (5, [7]) ∧
    ¬ (scanCallbackFunc Unit 0 (ScanEvent.importModule "net")
        (some (mkContainer importErrBundle)) 5).allocation = none ∧
    (scanCallbackFunc Unit 0 (ScanEvent.importModule "net")
        (some (mkContainer importErrBundle)) 5).verdict =
      Verdict.CALLBACK_ERROR ∧
    Option.map (fun c => scanCallbackContainer.cdata c)
      (scanCallbackFunc Unit 0 (ScanEvent.importModule "net")
        (some (mkContainer importErrBundle)) 5).cbc = some [5] := by
  refine ⟨rfl, rfl, ?_, rfl, rfl⟩
  intro h
  rw [show (scanCallbackFunc Unit 0 (ScanEvent.importModule "net")
      (some (mkContainer importErrBundle)) 5).allocation =
      some (5, [7]) from rfl] at h
  exact Option.noConfusion h

/-- Claim C3 as amended: a PendingBuffer is allocated, handed to the
engine and tracked exactly when the returned payload is non-empty,
regardless of the error value; when the callback returns a non-nil error
the verdict is the engine error code, and with an empty payload no buffer
is allocated. -/
theorem importModule_alloc_iff_nonempty (σ : Type) (ctxPtr nextPtr : Nat)
    (cbc : scanCallbackContainer σ) (name : String)
    (f : σ → ScanContext → String → σ × List Nat × Bool × Option String)
    (st : σ) (buf : List Nat) (a : Bool) (e : Option String)
    (hf : cbc.ScanCallback.ImportModule = some f)
    (hr : f cbc.state { cptr := ctxPtr } name = (st, buf, a, e)) :
    ((scanCallbackFunc σ ctxPtr (ScanEvent.importModule name)
        (some cbc) nextPtr).allocation.isSome ↔ buf ≠ []) ∧
    ((scanCallbackFunc σ ctxPtr (ScanEvent.importModule name)
        (some cbc) nextPtr).moduleData.isSome ↔ buf ≠ []) ∧
    Option.map (fun c => scanCallbackContainer.cdata c)
      (scanCallbackFunc σ ctxPtr (ScanEvent.importModule name)
        (some cbc) nextPtr).cbc =
      some (if buf = [] then cbc.cdata else cbc.cdata ++ [nextPtr]) ∧
    (e.isSome →
      (scanCallbackFunc σ ctxPtr (ScanEvent.importModule name)
        (some cbc) nextPtr).verdict = Verdict.CALLBACK_ERROR) := by
  by_cases hb : buf = []
  · subst hb
    refine ⟨by simp [scanCallbackFunc, hf, hr], by simp [scanCallbackFunc, hf, hr], by simp [scanCallbackFunc, hf, hr], ?_⟩
    intro he
    simp [scanCallbackFunc, hf, hr, he]
  · have hb0 : ¬ List.length buf = 0 := by
      simpa [List.length_eq_zero] using hb
    refine ⟨by simp [scanCallbackFunc, hf, hr, hb0, hb], by simp [scanCallbackFunc, hf, hr, hb0, hb], by simp [scanCallbackFunc, hf, hr, hb0, hb, scanCallbackContainer.addCPointer], ?_⟩
    intro he
    simp [scanCallbackFunc, hf, hr, hb0, he]

/-- Witness for claim C3 as amended: with payload [7] and error boom the
buffer is allocated and tracked at pointer 5 and the verdict is the
engine error code. -/
theorem importModule_alloc_iff_nonempty_witness :
    ((scanCallbackFunc Unit 0 (ScanEvent.importModule "net")
        (some (mkContainer importErrBundle)) 5).allocation.isSome ↔
      ([7] : List Nat) ≠ []) ∧
    ((scanCallbackFunc Unit 0 (ScanEvent.importModule "net")
        (some (mkContainer importErrBundle)) 5).moduleData.isSome ↔
      ([7] : List Nat) ≠ []) ∧
    Option.map (fun c => scanCallbackContainer.cdata c)
      (scanCallbackFunc Unit 0 (ScanEvent.importModule "net")
        (some (mkContainer importErrBundle)) 5).cbc =
      some (if ([7] : List Nat) = [] then
        (mkContainer importErrBundle).cdata
      else (mkContainer importErrBundle).cdata ++ [5]) ∧
    ((some "boom" : Option String).isSome →
      (scanCallbackFunc Unit 0 (ScanEvent.importModule "net")
        (some (mkContainer importErrBundle)) 5).verdict =
      Verdict.CALLBACK_ERROR) :=
  importModule_alloc_iff_nonempty Unit 0 5 (mkContainer importErrBundle)
    "net" importErrCb () [7] false (some "boom") rfl rfl

/-- Counterexample to claim C2: a rule whose integer metadata value
2147483648 is reported at Go int width is stored by the recorder as the
int32 value -2147483648, so the stored value does not equal the reported
value. -/
theorem ruleMatching_meta_narrowed_counterexample :
    wideMetaRule.Metas = [("score", MetaValue.mInt 2147483648)] ∧
    List.map (fun m => m.Meta)
      (MatchRules.RuleMatching [] { cptr := 0 } wideMetaRule).1 =
      [[("score", MetaValue.mInt32 (-2147483648))]] ∧
    ([("score", MetaValue.mInt32 (-2147483648))] :
        List (String × MetaValue)) ≠
      [("score", MetaValue.mInt 2147483648)] := by
  refine ⟨rfl, ?_, by decide⟩
  simp [MatchRules.RuleMatching, wideMetaRule, convertIntMetas,
    convertIntMeta, int32wrap]

/-- Claim C2 as amended: the recorder stores each metadata entry after the
backward-compatibility conversion that turns a value of Go type int into
an int32, reducing the value modulo 2 to the 32 into the signed 32-bit
range; an int value already inside that range keeps its numeric value,
and boolean, string and int32 values are stored unchanged. -/
theorem ruleMatching_meta_int32 (mr : MatchRules) (sc : ScanContext)
    (r : YRRule) (i : Int)
    (h1 : -(2 ^ 31) ≤ i) (h2 : i < 2 ^ 31) :
    List.map (fun m => m.Meta) (MatchRules.RuleMatching mr sc r).1 =
      List.map (fun m => m.Meta) mr ++ [convertIntMetas r.Metas] ∧
    convertIntMeta (MetaValue.mInt i) = MetaValue.mInt32 i ∧
    (∀ b, convertIntMeta (MetaValue.mBool b) = MetaValue.mBool b) ∧
    (∀ s, convertIntMeta (MetaValue.mStr s) = MetaValue.mStr s) ∧
    (∀ j, convertIntMeta (MetaValue.mInt32 j) = MetaValue.mInt32 j) := by
  refine ⟨?_, ?_, fun b => rfl, fun s => rfl, fun j => rfl⟩
  · simp [MatchRules.RuleMatching]
  · have h3 : (0 : Int) ≤ i + 2 ^ 31 := by linarith
    have h4 : i + 2 ^ 31 < 2 ^ 32 := by
      have : (2 : Int) ^ 32 = 2 ^ 31 + 2 ^ 31 := by norm_num
      linarith
    simp only [convertIntMeta, int32wrap]
    rw [Int.emod_eq_of_lt h3 h4]
    norm_num

/-- Witness for claim C2 as amended: the in-range metadata value 80 of the
demo rule is stored as the int32 value 80. -/
theorem ruleMatching_meta_int32_witness :
    convertIntMeta (MetaValue.mInt 80) = MetaValue.mInt32 80 :=
  (ruleMatching_meta_int32 [] { cptr := 0 } demoRule 80
    (by norm_num) (by norm_num)).2.1
